import Mathlib

/-!
Verification of the MCP server diagnostic tool
(`src/cleanup-archive/analysis/mcp_server_diagnostic.py`).

The Python source is shallowly embedded below: the global `diagnostics`
dictionary becomes an explicit `Diagnostics` state threaded through the
functions, subprocess behaviour becomes an explicit `ChildBehavior` input,
filesystem effects of the connectivity probe become an explicit event trace,
and Python exceptions become `Except String` results.  Wall-clock timestamps
and the elapsed-time readings interpolated into some messages are real-time
quantities; entries drop the timestamp field and the formatted elapsed-time
string is taken as an input parameter.
-/

/-- Python values as produced by `json.loads`: strings, numbers, booleans,
`None`, lists and (string-keyed) dicts.  JSON numbers with a fractional part
or exponent are kept as their source text and never interpreted
(constructor `float`); no claim computes with float values. -/
inductive PyObj where
  | str (s : String)
  | num (n : Int)
  | float (t : String)
  | bool (b : Bool)
  | null
  | list (xs : List PyObj)
  | dict (kvs : List (String × PyObj))
deriving Repr

/-- Does `l` start with `p`? -/
def charsStartWith : List Char → List Char → Bool
  | [], _ => true
  | _ :: _, [] => false
  | p :: ps, c :: cs => p = c && charsStartWith ps cs

/-- Does `hay` contain `pat` as a contiguous run? -/
def charsContain (hay pat : List Char) : Bool :=
  match hay with
  | [] => pat.isEmpty
  | _ :: rest => charsStartWith pat hay || charsContain rest pat

/-- Python's substring test `sub in s`. -/
def pySubstr (s sub : String) : Bool :=
  charsContain s.toList sub.toList

/-- Python's `str.upper()` (call sites only pass ASCII level names). -/
def pyUpper (s : String) : String := String.mk (s.toList.map Char.toUpper)

/-- Python's `str.lower()` (applied to ASCII diagnostic messages). -/
def pyLower (s : String) : String := String.mk (s.toList.map Char.toLower)

/-- Strip leading and trailing whitespace (Python `str.strip()` with no
argument, on the ASCII texts that reach it). -/
def stripChars (cs : List Char) : List Char :=
  ((cs.dropWhile Char.isWhitespace).reverse.dropWhile Char.isWhitespace).reverse

/-- Python `s.strip()`. -/
def pyStrip (s : String) : String := String.mk (stripChars s.toList)

/-- Segments of Python `s.split(sep)` for a nonempty separator, scanning
left to right; `skip` counts characters still belonging to a matched
separator occurrence. -/
def pySplitGo (sep : List Char) : List Char → Nat → List (List Char)
  | [], _ => [[]]
  | _ :: rest, Nat.succ k => pySplitGo sep rest k
  | c :: rest, 0 =>
    if charsStartWith sep (c :: rest) then
      [] :: pySplitGo sep rest (sep.length - 1)
    else
      match pySplitGo sep rest 0 with
      | [] => [[c]]
      | seg :: segs => (c :: seg) :: segs

/-- Python `s.split(sep)` (the source only splits on nonempty
separators). -/
def pySplit (s sep : String) : List String :=
  (pySplitGo sep.toList s.toList 0).map String.mk

/-- `os.path.join` for the one relative join the probe performs (POSIX
separator). -/
def pathJoin (a b : String) : String :=
  if a = "" then b
  else if a.toList.getLast? = some '/' then a ++ b
  else a ++ "/" ++ b

/-! ### JSON parsing (`json.loads`)

A recursive-descent parser over the character list, with fuel bounding the
nesting depth.  Strings support the common escapes plus `\uXXXX` basic-plane
code points (surrogate pairs are not modelled); numbers are parsed exactly
when integral, and otherwise their raw text is kept as a `PyObj.float`
without checking the fine grammar of the fraction/exponent part.  No claim
depends on those corners. -/

/-- JSON insignificant whitespace. -/
def jsonWs (cs : List Char) : List Char :=
  cs.dropWhile (fun c => c = ' ' ∨ c = '\n' ∨ c = '\t' ∨ c = '\r')

/-- Value of a hex digit, if any. -/
def hexVal (c : Char) : Option Nat :=
  if '0' ≤ c ∧ c ≤ '9' then some (c.toNat - 48)
  else if 'a' ≤ c ∧ c ≤ 'f' then some (c.toNat - 87)
  else if 'A' ≤ c ∧ c ≤ 'F' then some (c.toNat - 55)
  else none

/-- Parse the body of a JSON string literal (the opening quote already
consumed), returning the decoded characters and the rest of the input. -/
def parseStrChars : List Char → Option (List Char × List Char)
  | [] => none
  | '"' :: rest => some ([], rest)
  | '\\' :: 'u' :: a :: b :: c :: d :: rest =>
    match hexVal a, hexVal b, hexVal c, hexVal d with
    | some va, some vb, some vc, some vd =>
      let n := ((va * 16 + vb) * 16 + vc) * 16 + vd
      if h : n.isValidChar then
        match parseStrChars rest with
        | some (cs, rem) => some (Char.ofNatAux n h :: cs, rem)
        | none => none
      else none
    | _, _, _, _ => none
  | '\\' :: e :: rest =>
    let decoded : Option Char :=
      if e = '"' then some '"'
      else if e = '\\' then some '\\'
      else if e = '/' then some '/'
      else if e = 'n' then some '\n'
      else if e = 't' then some '\t'
      else if e = 'r' then some '\r'
      else none
    match decoded with
    | some ch =>
      match parseStrChars rest with
      | some (cs, rem) => some (ch :: cs, rem)
      | none => none
    | none => none
  | c :: rest =>
    match parseStrChars rest with
    | some (cs, rem) => some (c :: cs, rem)
    | none => none

/-- Digits to a natural number. -/
def digitsToNat (ds : List Char) : Nat :=
  ds.foldl (fun a c => a * 10 + (c.toNat - 48)) 0

/-- Parse a JSON number.  An integral number becomes `PyObj.num`; a number
continuing with `.`/`e`/`E` becomes `PyObj.float` carrying its text. -/
def parseNum (cs : List Char) : Option (PyObj × List Char) :=
  let signed : Bool := match cs with | '-' :: _ => true | _ => false
  let cs1 := if signed then cs.tail else cs
  let ds := cs1.takeWhile Char.isDigit
  let rest := cs1.dropWhile Char.isDigit
  if ds.isEmpty then none
  else
    let isFloatCont : Char → Bool := fun c =>
      c.isDigit ∨ c = '.' ∨ c = 'e' ∨ c = 'E' ∨ c = '+' ∨ c = '-'
    match rest with
    | c :: _ =>
      if c = '.' ∨ c = 'e' ∨ c = 'E' then
        let ftext := rest.takeWhile isFloatCont
        let frest := rest.dropWhile isFloatCont
        some (.float (String.mk ((if signed then ['-'] else []) ++ ds ++ ftext)), frest)
      else
        some (.num (if signed then -(digitsToNat ds : Int) else (digitsToNat ds : Int)), rest)
    | [] =>
      some (.num (if signed then -(digitsToNat ds : Int) else (digitsToNat ds : Int)), rest)

mutual

/-- Parse one JSON value. -/
def parseVal : Nat → List Char → Option (PyObj × List Char)
  | 0, _ => none
  | Nat.succ fuel, cs =>
    match jsonWs cs with
    | [] => none
    | '"' :: rest =>
      match parseStrChars rest with
      | some (l, rem) => some (.str (String.mk l), rem)
      | none => none
    | '{' :: rest => parseMembers fuel (jsonWs rest) true
    | '[' :: rest => parseElems fuel (jsonWs rest) true
    | 't' :: 'r' :: 'u' :: 'e' :: rest => some (.bool true, rest)
    | 'f' :: 'a' :: 'l' :: 's' :: 'e' :: rest => some (.bool false, rest)
    | 'n' :: 'u' :: 'l' :: 'l' :: rest => some (.null, rest)
    | cs2 => parseNum cs2

/-- Parse the members of a JSON object after `{`; `first` is true before any
member has been consumed (so `}` closes an empty object only then). -/
def parseMembers : Nat → List Char → Bool → Option (PyObj × List Char)
  | 0, _, _ => none
  | Nat.succ fuel, cs, first =>
    match jsonWs cs with
    | '}' :: rest => if first then some (.dict [], rest) else none
    | '"' :: rest =>
      match parseStrChars rest with
      | some (k, rem) =>
        match jsonWs rem with
        | ':' :: rem2 =>
          match parseVal fuel rem2 with
          | some (v, rem3) =>
            match jsonWs rem3 with
            | ',' :: rem4 =>
              match parseMembers fuel rem4 false with
              | some (.dict kvs, rem5) => some (.dict ((String.mk k, v) :: kvs), rem5)
              | _ => none
            | '}' :: rem4 => some (.dict [(String.mk k, v)], rem4)
            | _ => none
          | none => none
        | _ => none
      | none => none
    | _ => none

/-- Parse the elements of a JSON array after `[`; `first` as in
`parseMembers`. -/
def parseElems : Nat → List Char → Bool → Option (PyObj × List Char)
  | 0, _, _ => none
  | Nat.succ fuel, cs, first =>
    match jsonWs cs with
    | ']' :: rest => if first then some (.list [], rest) else none
    | cs2 =>
      match parseVal fuel cs2 with
      | some (v, rem) =>
        match jsonWs rem with
        | ',' :: rem2 =>
          match parseElems fuel rem2 false with
          | some (.list vs, rem3) => some (.list (v :: vs), rem3)
          | _ => none
        | ']' :: rem2 => some (.list [v], rem2)
        | _ => none
      | none => none

end

/-- Python's `json.loads`: parse one value and require only whitespace
after it; `none` models a raised `json.JSONDecodeError`. -/
def json_loads (s : String) : Option PyObj :=
  match parseVal (s.length + 2) s.toList with
  | some (v, rem) => if jsonWs rem = [] then some v else none
  | none => none

/-! ### The diagnostics ledger -/

/-- One entry of `diagnostics['checks']`: the upper-cased level, the message,
and the optional structured payload (the wall-clock timestamp field is
dropped).  Call sites only pass payloads that Python's
`isinstance (dict, list, str, int, float, bool)` test keeps unchanged. -/
structure CheckEntry where
  level : String
  message : String
  data : Option PyObj
deriving Repr

/-- The global `diagnostics` accumulator: the recorded Node.js version, the
check entries, the issue counter and the recommendation list (timestamp and
static platform fields omitted). -/
structure Diagnostics where
  node_version : Option String
  checks : List CheckEntry
  issues_found : Nat
  recommendations : List String
deriving Repr

/-- The `diagnostics` object as initialised at program start. -/
def initDiagnostics : Diagnostics :=
  { node_version := none, checks := [], issues_found := 0, recommendations := [] }

/-- `log(level, message, data)`: append the entry with the upper-cased level
and bump `issues_found` exactly when the level is WARNING or ERROR.
(The console printing is output-only and not modelled.) -/
def log (d : Diagnostics) (level message : String) (data : Option PyObj) : Diagnostics :=
  { d with
    checks := d.checks ++ [{ level := pyUpper level, message := message, data := data }]
    issues_found :=
      if pyUpper level = "WARNING" ∨ pyUpper level = "ERROR" then
        d.issues_found + 1
      else d.issues_found }

/-- `diagnostics['recommendations'].append(r)`. -/
def addRec (d : Diagnostics) (r : String) : Diagnostics :=
  { d with recommendations := d.recommendations ++ [r] }

/-! ### Process Runner (`run_command`) -/

/-- The behaviour of the child process that `subprocess.run` launches:
either it ran to termination and exited with its (non-negative) exit
status together with its captured output streams, or it exceeded the
timeout, or it could not be launched at all (the exception text is
carried). -/
inductive ChildBehavior where
  | completed (exitCode : Nat) (stdout stderr : String)
  | timedOut
  | launchError (msg : String)
deriving Repr

/-- `run_command(cmd, timeout)`: log the INFO entry recording the command
line, then return the exit code with the captured streams; a timeout yields
the sentinel `-1` plus an ERROR entry and a stderr message naming the
timeout, a launch failure yields the sentinel `-2` plus an ERROR entry and
the failure description as stderr. -/
def run_command (d : Diagnostics) (cmd : List String) (timeout : Nat)
    (beh : ChildBehavior) : Diagnostics × Int × String × String :=
  let cmdline := String.intercalate " " cmd
  let d := log d "INFO" ("Running command: " ++ cmdline) none
  match beh with
  | .completed code out err => (d, (code : Int), out, err)
  | .timedOut =>
    (log d "ERROR" ("Command timed out after " ++ toString timeout ++ " seconds: " ++ cmdline) none,
     -1, "", "Timed out after " ++ toString timeout ++ " seconds")
  | .launchError msg =>
    (log d "ERROR" ("Error running command: " ++ cmdline) (some (.str msg)),
     -2, "", msg)

/-! ### Prerequisite checks -/

/-- Digit run of a Python `int()` literal: digits optionally separated by
single underscores, at least one digit, no leading/trailing underscore. -/
def pyDigitsCore : List Char → Nat → Bool → Option Nat
  | [], acc, lastDigit => if lastDigit then some acc else none
  | c :: rest, acc, lastDigit =>
    if c.isDigit then pyDigitsCore rest (acc * 10 + (c.toNat - 48)) true
    else if c = '_' ∧ lastDigit then
      match rest with
      | r :: _ => if r.isDigit then pyDigitsCore rest acc false else none
      | [] => none
    else none

/-- Python's `int(s)` on a string: surrounding whitespace stripped, an
optional sign, then digits (with Python's underscore grouping); `none`
models a raised `ValueError`. -/
def pyInt (s : String) : Option Int :=
  let cs := stripChars s.toList
  match cs with
  | '+' :: rest => (pyDigitsCore rest 0 false).map (fun n => (n : Int))
  | '-' :: rest => (pyDigitsCore rest 0 false).map (fun n => -(n : Int))
  | _ => (pyDigitsCore cs 0 false).map (fun n => (n : Int))

/-- `check_node_version()`: run `node --version`; on exit 0 record the
version, log INFO, parse the leading dotted component with `int()` (an
unparseable component raises `ValueError`, which nothing in the function
catches — hence the `Except`), warn below major version 18; on non-zero
exit or launch failure log ERROR and recommend installing Node.js. -/
def check_node_version (d : Diagnostics) (timeout : Nat) (beh : ChildBehavior) :
    Diagnostics × Except String Bool :=
  let (d, code, stdout, stderr) := run_command d ["node", "--version"] timeout beh
  if code = 0 then
    let version := pyStrip stdout
    let d := { d with node_version := some version }
    let d := log d "INFO" ("Node.js version: " ++ version) none
    let version_parts := pySplit (String.mk (version.toList.dropWhile (fun c => c = 'v'))) "."
    match pyInt (version_parts.headD "") with
    | none => (d, Except.error "ValueError")
    | some major_version =>
      if major_version < 18 then
        let d := log d "WARNING"
          ("Node.js version " ++ version ++ " may be too old. Version 18+ is recommended.") none
        let d := addRec d "Upgrade Node.js to version 18 or newer"
        (d, Except.ok false)
      else (d, Except.ok true)
  else
    let d := log d "ERROR" "Node.js is not installed or not in PATH" (some (.str stderr))
    let d := addRec d "Install Node.js version 18 or newer"
    (d, Except.ok false)

/-- Python's `key in obj` on a decoded JSON value: key membership for a
dict, element membership for a list, substring for a string, and a
`TypeError` otherwise. -/
def pyIn (key : String) (obj : PyObj) : Except String Bool :=
  match obj with
  | .dict kvs => Except.ok (kvs.any (fun kv => kv.1 = key))
  | .list xs => Except.ok (xs.any (fun x => match x with | PyObj.str s => s = key | _ => false))
  | .str s => Except.ok (pySubstr s key)
  | _ => Except.error "TypeError"

/-- Python's `obj[key]` on a decoded JSON value: dict lookup (last binding
wins, as `json.loads` keeps the last duplicate key), raising `KeyError`
when the key is absent and `TypeError` when `obj` is not a dict. -/
def pySubscript (obj : PyObj) (key : String) : Except String PyObj :=
  match obj with
  | .dict kvs =>
    match (kvs.filter (fun kv => kv.1 = key)).getLast? with
    | some kv => Except.ok kv.2
    | none => Except.error "KeyError"
  | _ => Except.error "TypeError"

mutual

/-- Python's `repr` on a decoded JSON value (float text kept as is). -/
def pyRepr : PyObj → String
  | .str s => "'" ++ s ++ "'"
  | .num n => toString n
  | .float t => t
  | .bool b => if b then "True" else "False"
  | .null => "None"
  | .list xs => "[" ++ String.intercalate ", " (pyReprList xs) ++ "]"
  | .dict kvs => "\x7b" ++ String.intercalate ", " (pyReprDict kvs) ++ "\x7d"

/-- `pyRepr` mapped over list elements. -/
def pyReprList : List PyObj → List String
  | [] => []
  | x :: xs => pyRepr x :: pyReprList xs

/-- `pyRepr` mapped over dict items. -/
def pyReprDict : List (String × PyObj) → List String
  | [] => []
  | (k, v) :: kvs => ("'" ++ k ++ "': " ++ pyRepr v) :: pyReprDict kvs

end

/-- Python's `str()` as used by f-string interpolation. -/
def pyStr : PyObj → String
  | .str s => s
  | x => pyRepr x

/-- `check_mcp_sdk()`: run the npm query; when it exits 0 and its stdout
mentions the package, decode the JSON (a `json.JSONDecodeError` is caught
by the `except` and falls through to the WARNING) and walk
`npm_output["dependencies"]["@modelcontextprotocol/sdk"]["version"]` —
any `TypeError`/`KeyError` on that walk is *not* caught and escapes the
function.  Every non-success path that raises nothing logs the WARNING and
recommends installing the package. -/
def check_mcp_sdk (d : Diagnostics) (timeout : Nat) (beh : ChildBehavior) :
    Diagnostics × Except String Bool :=
  let (d, code, stdout, _stderr) :=
    run_command d ["npm", "list", "@modelcontextprotocol/sdk", "--json", "--depth=0"] timeout beh
  let fallthrough : Diagnostics → Diagnostics × Except String Bool := fun d =>
    let d := log d "WARNING" "@modelcontextprotocol/sdk not found or has invalid version" none
    let d := addRec d "Install @modelcontextprotocol/sdk package"
    (d, Except.ok false)
  if code = 0 ∧ pySubstr stdout "@modelcontextprotocol/sdk" then
    match json_loads stdout with
    | none => fallthrough d
    | some npm_output =>
      match pyIn "dependencies" npm_output with
      | Except.error e => (d, Except.error e)
      | Except.ok false => fallthrough d
      | Except.ok true =>
        match pySubscript npm_output "dependencies" with
        | Except.error e => (d, Except.error e)
        | Except.ok deps =>
          match pyIn "@modelcontextprotocol/sdk" deps with
          | Except.error e => (d, Except.error e)
          | Except.ok false => fallthrough d
          | Except.ok true =>
            match pySubscript deps "@modelcontextprotocol/sdk" with
            | Except.error e => (d, Except.error e)
            | Except.ok sdkEntry =>
              match pySubscript sdkEntry "version" with
              | Except.error e => (d, Except.error e)
              | Except.ok version =>
                let d := log d "SUCCESS"
                  ("@modelcontextprotocol/sdk found: version " ++ pyStr version) none
                (d, Except.ok true)
  else fallthrough d

/-! ### Connectivity probe (`test_mcp_server_connection`) -/

/-- The throwaway client payload that `create_test_mcp_client` writes
verbatim to a temporary `.js` file (source lines 172-267).  The probe treats
it as an opaque fixed payload; its exact text is immaterial to every claim,
so the embedding keeps a placeholder constant. -/
def clientSource : String := "// minimal MCP test client (opaque payload)"

/-- A filesystem effect of the probe. -/
inductive FsEvent where
  | mkdirEv (p : String)
  | writeEv (p : String) (content : String)
  | unlinkEv (p : String) (ok : Bool)
deriving Repr, DecidableEq

/-- Python's `len()` on a decoded JSON value; `none` models the `TypeError`
raised on numbers, booleans and `None`. -/
def pyLen : PyObj → Option Nat
  | .str s => some s.length
  | .list xs => some xs.length
  | .dict kvs => some kvs.length
  | _ => none

/-- The elements of a decoded JSON list when every element is a string;
`none` as soon as one is not. -/
def strElems : List PyObj → Option (List String)
  | [] => some []
  | PyObj.str s :: xs => (strElems xs).map (fun r => s :: r)
  | _ => none

/-- Python's `', '.join(x)` on a decoded JSON value: a list joins its
elements (a non-string element raises, modelled `none`), a string joins its
characters, a dict joins its keys. -/
def pyJoinComma : PyObj → Option String
  | .list xs => (strElems xs).map (String.intercalate ", ")
  | .str s => some (String.intercalate ", " (s.toList.map (fun c => String.mk [c])))
  | .dict kvs => some (String.intercalate ", " (kvs.map (fun kv => kv.1)))
  | _ => none

/-- Python's `t not in tools` for a string `t`: list-element, substring or
dict-key non-membership.  Other shapes would raise, but the call site only
reaches this after `len`/`join` succeeded, which rules them out. -/
def pyNotIn (t : String) (obj : PyObj) : Bool :=
  match obj with
  | .list xs => !(xs.any (fun x => match x with | PyObj.str s => s = t | _ => false))
  | .str s => !(pySubstr s t)
  | .dict kvs => !(kvs.any (fun kv => kv.1 = t))
  | _ => false

/-- The token after the `Tools available:` marker:
`stdout.split("Tools available:")[1].split("\n")[0].strip()`. -/
def toolsStrOf (stdout : String) : String :=
  pyStrip (((pySplit ((pySplit stdout "Tools available:").getD 1 "") "\n").getD 0 ""))

/-- The probe's expected-tools `try` block (source lines 329-343): decode the
token, log the INFO listing, compute the missing tools against the fixed
expected list and, when some are missing, log one WARNING and append one
recommendation.  Python's bare `except` turns any failure inside the block
(JSON decode error, or a payload whose `len`/`join` raises) into the single
`Could not parse tools list` WARNING carrying the raw token. -/
def toolsTryBlock (d : Diagnostics) (tools_str : String) : Diagnostics :=
  let parseFailed : Diagnostics → Diagnostics := fun d =>
    log d "WARNING" "Could not parse tools list" (some (PyObj.str tools_str))
  match json_loads tools_str with
  | none => parseFailed d
  | some tools =>
    match pyLen tools, pyJoinComma tools with
    | some n, some joined =>
      let d := log d "INFO" ("Server offers " ++ toString n ++ " tools: " ++ joined) none
      let missing_tools := ["bash", "fileRead", "fileWrite"].filter (fun t => pyNotIn t tools)
      if missing_tools.isEmpty then d
      else
        let d := log d "WARNING"
          ("Missing expected tools: " ++ String.intercalate ", " missing_tools) none
        addRec d ("Implement missing tools: " ++ String.intercalate ", " missing_tools)
    | _, _ => parseFailed d

/-- The probe's success branch (source lines 323-343): log SUCCESS with the
raw stdout, then run the expected-tools block when the marker line is
present. -/
def successBranch (d : Diagnostics) (elapsed stdout : String) : Diagnostics :=
  let d := log d "SUCCESS" ("Connected to MCP server successfully in " ++ elapsed ++ "s")
    (some (PyObj.str stdout))
  if pySubstr stdout "Tools available:" then toolsTryBlock d (toolsStrOf stdout)
  else d

/-- The probe's failure branch (source lines 344-361): log the generic ERROR
with both streams, then classify stderr by substring in fixed priority
order, each match adding exactly one further ERROR and one
recommendation. -/
def failureBranch (d : Diagnostics) (elapsed stdout stderr : String) : Diagnostics :=
  let d := log d "ERROR" ("Failed to connect to MCP server after " ++ elapsed ++ "s")
    (some (PyObj.dict [("stdout", PyObj.str stdout), ("stderr", PyObj.str stderr)]))
  if pySubstr stderr "ENOENT" then
    addRec (log d "ERROR" "Server file not found or not executable" none)
      "Verify server file path and permissions"
  else if pySubstr stderr "SyntaxError" then
    addRec (log d "ERROR" "JavaScript syntax error in server or client" none)
      "Check for syntax errors in server code"
  else if pySubstr stderr "Error:" && pySubstr stderr "import" && pySubstr stderr "require" then
    addRec (log d "ERROR" "Module import/require error - possible ESM/CommonJS conflict" none)
      "Check for ESM/CommonJS compatibility issues in the MCP server"
  else d

/-- Result of the probe: the updated ledger, the boolean success, and the
trace of filesystem effects. -/
structure ProbeResult where
  diag : Diagnostics
  success : Bool
  events : List FsEvent
deriving Repr

/-- `test_mcp_server_connection(server_path, work_dir)`.  Inputs beyond the
source signature make the environment explicit: whether the work directory
already exists, the temporary path `tempfile` hands the client file, the
child's behaviour, whether the best-effort unlink succeeds, and the
formatted elapsed-time reading. -/
def test_mcp_server_connection (d : Diagnostics) (timeout : Nat)
    (server_path : Option String) (work_dir : String) (work_dir_exists : Bool)
    (test_client_path : String) (beh : ChildBehavior) (unlink_ok : Bool)
    (elapsed : String) : ProbeResult :=
  match server_path with
  | none => { diag := d, success := false, events := [] }
  | some sp =>
    let (d, ev1) :=
      if work_dir_exists then (d, ([] : List FsEvent))
      else (log d "INFO" ("Created test directory: " ++ work_dir) none,
            [FsEvent.mkdirEv work_dir])
    let test_file_path := pathJoin work_dir "test-file.txt"
    let ev2 := [FsEvent.writeEv test_file_path "Test content for MCP server"]
    let ev3 := [FsEvent.writeEv test_client_path clientSource]
    let d := log d "INFO" ("Created test client at: " ++ test_client_path) none
    let (d, code, stdout, stderr) :=
      run_command d ["node", test_client_path, sp, work_dir] (timeout * 2) beh
    let ev4 := [FsEvent.unlinkEv test_client_path unlink_ok]
    let success : Bool := code = 0
    let d := if success then successBranch d elapsed stdout
             else failureBranch d elapsed stdout stderr
    { diag := d, success := success, events := ev1 ++ ev2 ++ ev3 ++ ev4 }

/-! ### Report/severity synthesizer (`generate_report`) -/

/-- The `summary` block of the report. -/
structure ReportSummary where
  total_checks : Nat
  issues_found : Nat
  recommendations : Nat
deriving Repr, DecidableEq

/-- The terminal report artifact (timestamp and static system fields
omitted). -/
structure DiagnosticReport where
  checks : List CheckEntry
  issues_found : Nat
  recommendations : List String
  summary : ReportSummary
  severity : String
  error_analysis : List (String × Nat)
deriving Repr

/-- The severity tier derived from the issue counter (source lines
379-384). -/
def severityOf (issues : Nat) : String :=
  if issues = 0 then "HEALTHY"
  else if issues < 3 then "WARNING"
  else "CRITICAL"

/-- The first matching keyword of an issue message, from the fixed ordered
list, case-insensitively; `other` when none matches. -/
def keywordOf (message : String) : String :=
  let m := pyLower message
  if pySubstr m "not found" then "not found"
  else if pySubstr m "timeout" then "timeout"
  else if pySubstr m "error" then "error"
  else if pySubstr m "failed" then "failed"
  else "other"

/-- Increment the tally of key `k` in an insertion-ordered counting map. -/
def bumpCount (m : List (String × Nat)) (k : String) : List (String × Nat) :=
  if m.any (fun p => p.1 = k) then
    m.map (fun p => if p.1 = k then (p.1, p.2 + 1) else p)
  else m ++ [(k, 1)]

/-- The `error_analysis` frequency table over WARNING/ERROR entries. -/
def errorAnalysis (checks : List CheckEntry) : List (String × Nat) :=
  checks.foldl
    (fun m c =>
      if c.level = "ERROR" ∨ c.level = "WARNING" then bumpCount m (keywordOf c.message)
      else m) []

/-- `generate_report(report_path)`: snapshot the ledger into the report
(summary, severity derived from `issues_found`, error analysis), then log
the trailing INFO entry about the saved file.  The timestamped default
path is resolved by the caller; the file write itself is an output
effect. -/
def generate_report (d : Diagnostics) (report_path : String) :
    DiagnosticReport × Diagnostics :=
  let report : DiagnosticReport :=
    { checks := d.checks
      issues_found := d.issues_found
      recommendations := d.recommendations
      summary :=
        { total_checks := d.checks.length
          issues_found := d.issues_found
          recommendations := d.recommendations.length }
      severity := severityOf d.issues_found
      error_analysis := errorAnalysis d.checks }
  (report, log d "INFO" ("Diagnostic report saved to: " ++ report_path) none)

/-! ### Main pipeline (`main` and the `__main__` handler) -/

/-- `find_mcp_server_file()`: the path heuristics are an external
collaborator; `found` is the filesystem's answer, and the function adds the
INFO/ERROR entry the source logs for it. -/
def find_mcp_server_file (d : Diagnostics) (found : Option String) :
    Diagnostics × Option String :=
  match found with
  | some p => (log d "INFO" ("Found MCP server at: " ++ p) none, some p)
  | none => (log d "ERROR" "Could not find MCP server file" none, none)

/-- Everything `main()` reads from its environment: CLI arguments, the
behaviour of each launched subprocess, and the filesystem's answers. -/
structure MainInput where
  timeout : Nat
  target_dir : Option String
  tmp_dir : String
  nodeBeh : ChildBehavior
  npmBeh : ChildBehavior
  serverFound : Option String
  work_dir_exists : Bool
  client_path : String
  clientBeh : ChildBehavior
  client_unlink_ok : Bool
  elapsed : String
  report_path : String
deriving Repr

/-- The observable outcome of `main()`: the final ledger, the report (absent
when an exception escaped before `generate_report`), whether the probe ran,
the probe verdict, and either the `sys.exit` code or the escaping
exception. -/
structure MainResult where
  diag : Diagnostics
  report : Option DiagnosticReport
  probeRan : Bool
  serverOk : Bool
  outcome : Except String Nat
deriving Repr

/-- The body of `main()` after the target directory has been resolved (the
source's lines from the "Starting MCP server diagnostics" log onward): run
the two prerequisite checks and the server-file lookup, gate the probe on
all three, always generate the report afterwards, and exit 1 unless the
probe succeeded. -/
def mainCore (d : Diagnostics) (target_dir : String) (inp : MainInput) : MainResult :=
  let d := log d "INFO" "Starting MCP server diagnostics" none
  match check_node_version d inp.timeout inp.nodeBeh with
  | (d, Except.error e) =>
    { diag := d, report := none, probeRan := false, serverOk := false,
      outcome := Except.error e }
  | (d, Except.ok node_ok) =>
    match check_mcp_sdk d inp.timeout inp.npmBeh with
    | (d, Except.error e) =>
      { diag := d, report := none, probeRan := false, serverOk := false,
        outcome := Except.error e }
    | (d, Except.ok sdk_ok) =>
      let (d, server_path) := find_mcp_server_file d inp.serverFound
      let (d, server_ok, probeRan) :=
        if node_ok && sdk_ok && server_path.isSome then
          let r := test_mcp_server_connection d inp.timeout server_path target_dir
            inp.work_dir_exists inp.client_path inp.clientBeh inp.client_unlink_ok inp.elapsed
          (r.diag, r.success, true)
        else
          (log d "ERROR" "Cannot test MCP server without prerequisites" none, false, false)
      let (report, d) := generate_report d inp.report_path
      { diag := d, report := some report, probeRan := probeRan, serverOk := server_ok,
        outcome := Except.ok (if server_ok then 0 else 1) }

/-- `main()` (source lines 424-462): resolve the target directory (logging
the INFO entry when a temporary one is created), then run `mainCore`. -/
def mainRun (inp : MainInput) : MainResult :=
  match inp.target_dir with
  | some t => mainCore initDiagnostics t inp
  | none =>
    mainCore
      (log initDiagnostics "INFO"
        ("Created temporary test directory: " ++ inp.tmp_dir) none)
      inp.tmp_dir inp

/-- The `__main__` handler (source lines 464-473): a clean run keeps its
`sys.exit` code, `KeyboardInterrupt` becomes 130, and any other escaping
exception becomes 1. -/
def processExit (o : Except String Nat) : Nat :=
  match o with
  | Except.ok c => c
  | Except.error e => if e = "KeyboardInterrupt" then 130 else 1

/-! ### Ledger lemmas -/

/-- A single append request to the ledger (the arguments of one `log`
call). -/
structure LogReq where
  level : String
  message : String
  data : Option PyObj

/-- Fold a sequence of append requests over the ledger. -/
def applyLogs (d : Diagnostics) : List LogReq → Diagnostics
  | [] => d
  | r :: rs => applyLogs (log d r.level r.message r.data) rs

/-- Is a recorded entry a WARNING or ERROR entry? -/
def isIssueEntry (e : CheckEntry) : Bool :=
  e.level = "WARNING" ∨ e.level = "ERROR"

/-- The §3 invariant: the issue counter equals the number of WARNING/ERROR
entries recorded. -/
def ledgerInvariant (d : Diagnostics) : Prop :=
  d.issues_found = (d.checks.filter isIssueEntry).length

theorem log_checks (d : Diagnostics) (l m : String) (dt : Option PyObj) :
    (log d l m dt).checks = d.checks ++ [{ level := pyUpper l, message := m, data := dt }] := rfl

theorem log_recommendations (d : Diagnostics) (l m : String) (dt : Option PyObj) :
    (log d l m dt).recommendations = d.recommendations := rfl

theorem log_issues (d : Diagnostics) (l m : String) (dt : Option PyObj) :
    (log d l m dt).issues_found =
      d.issues_found + (if pyUpper l = "WARNING" ∨ pyUpper l = "ERROR" then 1 else 0) := by
  unfold log
  split <;> simp_all

theorem log_mono (d : Diagnostics) (l m : String) (dt : Option PyObj) :
    d.issues_found ≤ (log d l m dt).issues_found := by
  rw [log_issues]
  exact Nat.le_add_right _ _

theorem log_preserves_inv (d : Diagnostics) (l m : String) (dt : Option PyObj)
    (h : ledgerInvariant d) : ledgerInvariant (log d l m dt) := by
  unfold ledgerInvariant at *
  rw [log_checks, log_issues, List.filter_append, h, List.length_append]
  by_cases hc : pyUpper l = "WARNING" ∨ pyUpper l = "ERROR" <;>
    simp [isIssueEntry, hc]

theorem applyLogs_inv (reqs : List LogReq) :
    ∀ d : Diagnostics, ledgerInvariant d → ledgerInvariant (applyLogs d reqs) := by
  induction reqs with
  | nil => intro d h; exact h
  | cons r rs ih =>
    intro d h
    exact ih _ (log_preserves_inv d r.level r.message r.data h)

theorem applyLogs_mono (reqs : List LogReq) :
    ∀ d : Diagnostics, d.issues_found ≤ (applyLogs d reqs).issues_found := by
  induction reqs with
  | nil => intro d; exact Nat.le_refl _
  | cons r rs ih =>
    intro d
    exact Nat.le_trans (log_mono d r.level r.message r.data) (ih _)

theorem initDiagnostics_inv : ledgerInvariant initDiagnostics := rfl

/-- C1: along every sequence of ledger appends starting from the initial
state, after each append `issues_found` equals the number of recorded
entries whose level is WARNING or ERROR; each append increments the counter
exactly once when its level is WARNING or ERROR and leaves it unchanged
otherwise, so the counter is monotonically non-decreasing. -/
theorem c1_issues_found_invariant :
    (∀ reqs : List LogReq, ledgerInvariant (applyLogs initDiagnostics reqs)) ∧
    (∀ (d : Diagnostics) (level message : String) (data : Option PyObj),
      (log d level message data).issues_found =
        d.issues_found +
          (if pyUpper level = "WARNING" ∨ pyUpper level = "ERROR" then 1 else 0)) ∧
    (∀ (d : Diagnostics) (level message : String) (data : Option PyObj),
      d.issues_found ≤ (log d level message data).issues_found) :=
  ⟨fun reqs => applyLogs_inv reqs initDiagnostics initDiagnostics_inv,
   log_issues, log_mono⟩

/-! ### Severity lemmas -/

theorem generate_report_severity (d : Diagnostics) (path : String) :
    ((generate_report d path).1).severity = severityOf d.issues_found := rfl

theorem severityOf_pos (n : Nat) (h : n ≠ 0) :
    severityOf n = "WARNING" ∨ severityOf n = "CRITICAL" := by
  unfold severityOf
  rw [if_neg h]
  split <;> simp

theorem severityOf_ne_healthy (n : Nat) (h : n ≠ 0) : severityOf n ≠ "HEALTHY" := by
  rcases severityOf_pos n h with h2 | h2 <;> rw [h2] <;> decide

/-- C2: the severity recorded by the report generator is the pure function
`severityOf` of `issues_found` alone, and that function maps 0 to HEALTHY,
1 and 2 to WARNING, and everything at least 3 to CRITICAL. -/
theorem c2_severity_pure_function :
    (∀ (d : Diagnostics) (path : String),
      ((generate_report d path).1).severity = severityOf d.issues_found) ∧
    (∀ n : Nat,
      (n = 0 → severityOf n = "HEALTHY") ∧
      ((n = 1 ∨ n = 2) → severityOf n = "WARNING") ∧
      (3 ≤ n → severityOf n = "CRITICAL")) := by
  refine ⟨generate_report_severity, fun n => ⟨?_, ?_, ?_⟩⟩
  · rintro rfl; rfl
  · rintro (rfl | rfl) <;> rfl
  · intro h3
    unfold severityOf
    rw [if_neg (by omega), if_neg (by omega)]

/-- Witness for C2 at the three concrete tiers. -/
theorem c2_severity_pure_function_witness :
    severityOf 0 = "HEALTHY" ∧ severityOf 2 = "WARNING" ∧ severityOf 3 = "CRITICAL" :=
  ⟨((c2_severity_pure_function.2 0).1 rfl),
   ((c2_severity_pure_function.2 2).2.1 (Or.inr rfl)),
   ((c2_severity_pure_function.2 3).2.2 (Nat.le_refl 3))⟩

/-! ### Process-runner sentinel lemmas -/

/-- The exit-code component `run_command` returns for each child
behaviour. -/
def runExitCode : ChildBehavior → Int
  | .completed code _ _ => (code : Int)
  | .timedOut => -1
  | .launchError _ => -2

theorem run_command_exit (d : Diagnostics) (cmd : List String) (t : Nat)
    (beh : ChildBehavior) : (run_command d cmd t beh).2.1 = runExitCode beh := by
  cases beh <;> rfl

/-- C5: a timed-out run returns the sentinel `-1` with a stderr message
naming the timeout duration; a launch failure returns the sentinel `-2`
with the failure description as stderr; the two sentinels differ, and a
child process that ran to termination returns its own (non-negative) exit
status, which can equal neither sentinel. -/
theorem c5_sentinel_exit_codes :
    (∀ (d : Diagnostics) (cmd : List String) (t : Nat),
      (run_command d cmd t ChildBehavior.timedOut).2 =
        (-1, "", "Timed out after " ++ toString t ++ " seconds")) ∧
    (∀ (d : Diagnostics) (cmd : List String) (t : Nat) (msg : String),
      (run_command d cmd t (ChildBehavior.launchError msg)).2 = (-2, "", msg)) ∧
    ((-1 : Int) ≠ -2) ∧
    (∀ (d : Diagnostics) (cmd : List String) (t : Nat) (code : Nat) (out err : String),
      (run_command d cmd t (ChildBehavior.completed code out err)).2.1 = (code : Int) ∧
      (code : Int) ≠ -1 ∧ (code : Int) ≠ -2) := by
  refine ⟨fun d cmd t => rfl, fun d cmd t msg => rfl, by decide, fun d cmd t code out err => ?_⟩
  refine ⟨rfl, ?_, ?_⟩ <;> omega

/-! ### Runner-failure issue lemmas -/

theorem pyUpper_INFO : pyUpper "INFO" = "INFO" := rfl

theorem pyUpper_SUCCESS : pyUpper "SUCCESS" = "SUCCESS" := rfl

theorem pyUpper_WARNING : pyUpper "WARNING" = "WARNING" := rfl

theorem pyUpper_ERROR : pyUpper "ERROR" = "ERROR" := rfl

theorem run_command_failure_issues (d : Diagnostics) (cmd : List String) (t : Nat)
    (beh : ChildBehavior)
    (h : beh = ChildBehavior.timedOut ∨ ∃ m, beh = ChildBehavior.launchError m) :
    (run_command d cmd t beh).1.issues_found = d.issues_found + 1 := by
  rcases h with rfl | ⟨m, rfl⟩ <;>
    simp [run_command, log_issues, pyUpper_INFO, pyUpper_ERROR]

/-- C10: every timed-out or launch-failed runner invocation appends an ERROR
entry on top of the INFO entry, raising `issues_found` by exactly one; since
later appends never lower the counter, no subsequent ledger activity can
yield a report with severity HEALTHY. -/
theorem c10_runner_failure_never_healthy :
    ∀ (d : Diagnostics) (cmd : List String) (t : Nat) (beh : ChildBehavior),
      (beh = ChildBehavior.timedOut ∨ ∃ m, beh = ChildBehavior.launchError m) →
      ((run_command d cmd t beh).1.issues_found = d.issues_found + 1) ∧
      (∀ (reqs : List LogReq) (path : String),
        ((generate_report (applyLogs (run_command d cmd t beh).1 reqs) path).1).severity ≠
          "HEALTHY") := by
  intro d cmd t beh h
  refine ⟨run_command_failure_issues d cmd t beh h, fun reqs path => ?_⟩
  rw [generate_report_severity]
  apply severityOf_ne_healthy
  have h1 := applyLogs_mono reqs (run_command d cmd t beh).1
  rw [run_command_failure_issues d cmd t beh h] at h1
  omega

/-- Witness for C10: a timed-out `node` invocation from the empty ledger. -/
theorem c10_runner_failure_never_healthy_witness :
    ((run_command initDiagnostics ["node"] 10 ChildBehavior.timedOut).1.issues_found = 1) ∧
    ((generate_report (applyLogs (run_command initDiagnostics ["node"] 10
        ChildBehavior.timedOut).1 []) "report.json").1).severity ≠ "HEALTHY" :=
  ⟨(c10_runner_failure_never_healthy initDiagnostics ["node"] 10 ChildBehavior.timedOut
      (Or.inl rfl)).1,
   (c10_runner_failure_never_healthy initDiagnostics ["node"] 10 ChildBehavior.timedOut
      (Or.inl rfl)).2 [] "report.json"⟩

/-! ### Probe failure classification -/

theorem addRec_checks (d : Diagnostics) (r : String) : (addRec d r).checks = d.checks := rfl

theorem addRec_issues (d : Diagnostics) (r : String) :
    (addRec d r).issues_found = d.issues_found := rfl

theorem addRec_recommendations (d : Diagnostics) (r : String) :
    (addRec d r).recommendations = d.recommendations ++ [r] := rfl

/-- The ordered classification table of the probe's failure branch: the
first matching stderr signature, with its diagnostic message and
recommendation. -/
def classifyStderr (stderr : String) : Option (String × String) :=
  if pySubstr stderr "ENOENT" then
    some ("Server file not found or not executable",
      "Verify server file path and permissions")
  else if pySubstr stderr "SyntaxError" then
    some ("JavaScript syntax error in server or client",
      "Check for syntax errors in server code")
  else if pySubstr stderr "Error:" && pySubstr stderr "import" && pySubstr stderr "require" then
    some ("Module import/require error - possible ESM/CommonJS conflict",
      "Check for ESM/CommonJS compatibility issues in the MCP server")
  else none

/-- C3: the failure branch appends the generic ERROR entry and then exactly
the entry/recommendation pair of the first matching stderr signature — one
extra ERROR and one recommendation when a signature matches, nothing when
none does; the ENOENT signature takes priority over the others, the
SyntaxError signature over the import/require conjunction. -/
theorem c3_stderr_classification :
    ∀ (d : Diagnostics) (elapsed stdout stderr : String),
      ((failureBranch d elapsed stdout stderr).checks =
        d.checks ++
          [{ level := "ERROR",
             message := "Failed to connect to MCP server after " ++ elapsed ++ "s",
             data := some (PyObj.dict
               [("stdout", PyObj.str stdout), ("stderr", PyObj.str stderr)]) }] ++
          (match classifyStderr stderr with
           | some (m, _) => [{ level := "ERROR", message := m, data := none }]
           | none => [])) ∧
      ((failureBranch d elapsed stdout stderr).recommendations =
        d.recommendations ++
          (match classifyStderr stderr with
           | some (_, r) => [r]
           | none => [])) ∧
      (pySubstr stderr "ENOENT" = true →
        classifyStderr stderr =
          some ("Server file not found or not executable",
            "Verify server file path and permissions")) ∧
      (pySubstr stderr "ENOENT" = false → pySubstr stderr "SyntaxError" = true →
        classifyStderr stderr =
          some ("JavaScript syntax error in server or client",
            "Check for syntax errors in server code")) ∧
      (pySubstr stderr "ENOENT" = false → pySubstr stderr "SyntaxError" = false →
        (pySubstr stderr "Error:" && pySubstr stderr "import" &&
          pySubstr stderr "require") = true →
        classifyStderr stderr =
          some ("Module import/require error - possible ESM/CommonJS conflict",
            "Check for ESM/CommonJS compatibility issues in the MCP server")) ∧
      (pySubstr stderr "ENOENT" = false → pySubstr stderr "SyntaxError" = false →
        (pySubstr stderr "Error:" && pySubstr stderr "import" &&
          pySubstr stderr "require") = false →
        classifyStderr stderr = none) := by
  intro d elapsed stdout stderr
  have hcases :
      (failureBranch d elapsed stdout stderr).checks =
        d.checks ++
          [{ level := "ERROR",
             message := "Failed to connect to MCP server after " ++ elapsed ++ "s",
             data := some (PyObj.dict
               [("stdout", PyObj.str stdout), ("stderr", PyObj.str stderr)]) }] ++
          (match classifyStderr stderr with
           | some (m, _) => [{ level := "ERROR", message := m, data := none }]
           | none => []) ∧
      (failureBranch d elapsed stdout stderr).recommendations =
        d.recommendations ++
          (match classifyStderr stderr with
           | some (_, r) => [r]
           | none => []) := by
    by_cases h1 : pySubstr stderr "ENOENT" = true
    · simp [failureBranch, classifyStderr, h1, addRec_checks, addRec_recommendations,
        log_checks, log_recommendations, pyUpper_ERROR]
    · by_cases h2 : pySubstr stderr "SyntaxError" = true
      · simp [failureBranch, classifyStderr, h1, h2, addRec_checks, addRec_recommendations,
          log_checks, log_recommendations, pyUpper_ERROR]
      · by_cases h3 : (pySubstr stderr "Error:" && pySubstr stderr "import" &&
            pySubstr stderr "require") = true
        · simp [failureBranch, classifyStderr, h1, h2, h3, addRec_checks,
            addRec_recommendations, log_checks, log_recommendations, pyUpper_ERROR]
        · simp [failureBranch, classifyStderr, h1, h2, h3, addRec_checks,
            addRec_recommendations, log_checks, log_recommendations, pyUpper_ERROR]
  refine ⟨hcases.1, hcases.2, ?_, ?_, ?_, ?_⟩
  · intro h1; simp [classifyStderr, h1]
  · intro h1 h2; simp [classifyStderr, h1, h2]
  · intro h1 h2 h3; simp [classifyStderr, h1, h2, h3]
  · intro h1 h2 h3; simp [classifyStderr, h1, h2, h3]

/-- Witness for C3: a stderr containing both the ENOENT and the SyntaxError
signatures is classified as ENOENT only. -/
theorem c3_stderr_classification_witness :
    pySubstr "ENOENT while loading, also a SyntaxError later" "ENOENT" = true ∧
    classifyStderr "ENOENT while loading, also a SyntaxError later" =
      some ("Server file not found or not executable",
        "Verify server file path and permissions") :=
  ⟨by decide,
   (c3_stderr_classification initDiagnostics "0.10" ""
      "ENOENT while loading, also a SyntaxError later").2.2.1 (by decide)⟩

/-! ### Probe missing-tools detection -/

/-- The missing tools for a discovered capability list: the fixed expected
list filtered, in its own order, down to the names the discovered list does
not contain. -/
def missingOf (xs : List String) : List String :=
  ["bash", "fileRead", "fileWrite"].filter (fun t => !(xs.any (fun s => s = t)))

theorem strElems_map (xs : List String) :
    strElems (xs.map PyObj.str) = some xs := by
  induction xs with
  | nil => rfl
  | cons x xs ih => simp [strElems, ih]

theorem pyLen_strs (xs : List String) :
    pyLen (PyObj.list (xs.map PyObj.str)) = some xs.length := by
  simp [pyLen]

theorem pyJoin_strs (xs : List String) :
    pyJoinComma (PyObj.list (xs.map PyObj.str)) =
      some (String.intercalate ", " xs) := by
  simp [pyJoinComma, strElems_map]

theorem pyNotIn_strs (t : String) (xs : List String) :
    pyNotIn t (PyObj.list (xs.map PyObj.str)) = !(xs.any (fun s => s = t)) := by
  simp only [pyNotIn]
  congr 1
  induction xs with
  | nil => rfl
  | cons x xs ih => simp [ih]

/-- C4: when the capability token decodes to a list of strings, the missing
tools are exactly the expected list minus the discovered one in expected
order, and a non-empty result adds exactly one WARNING naming them and one
comma-joined recommendation; in particular a discovered list of
`bash, fileRead` yields one WARNING naming exactly `fileWrite`. -/
theorem c4_missing_tools :
    (∀ (d : Diagnostics) (ts : String) (xs : List String),
      json_loads ts = some (PyObj.list (xs.map PyObj.str)) →
      ((toolsTryBlock d ts).checks =
        d.checks ++
          [{ level := "INFO",
             message := "Server offers " ++ toString xs.length ++ " tools: " ++
               String.intercalate ", " xs,
             data := none }] ++
          (if (missingOf xs).isEmpty then []
           else [{ level := "WARNING",
                   message := "Missing expected tools: " ++
                     String.intercalate ", " (missingOf xs),
                   data := none }])) ∧
      ((toolsTryBlock d ts).recommendations =
        d.recommendations ++
          (if (missingOf xs).isEmpty then []
           else ["Implement missing tools: " ++
             String.intercalate ", " (missingOf xs)]))) ∧
    (missingOf ["bash", "fileRead"] = ["fileWrite"]) ∧
    ((toolsTryBlock initDiagnostics "[\"bash\", \"fileRead\"]").checks =
      [{ level := "INFO", message := "Server offers 2 tools: bash, fileRead", data := none },
       { level := "WARNING", message := "Missing expected tools: fileWrite", data := none }]) ∧
    ((toolsTryBlock initDiagnostics "[\"bash\", \"fileRead\"]").recommendations =
      ["Implement missing tools: fileWrite"]) := by
  refine ⟨?_, by decide, by rfl, by rfl⟩
  intro d ts xs h
  have hfilter :
      (["bash", "fileRead", "fileWrite"].filter
        (fun t => pyNotIn t (PyObj.list (xs.map PyObj.str)))) = missingOf xs := by
    unfold missingOf
    refine List.filter_congr ?_
    intro t _
    exact pyNotIn_strs t xs
  constructor
  · unfold toolsTryBlock
    rw [h]
    simp only [pyLen_strs, pyJoin_strs, hfilter]
    by_cases he : (missingOf xs).isEmpty = true
    · simp [he, log_checks, pyUpper_INFO, List.append_assoc]
    · simp [he, log_checks, addRec_checks, pyUpper_INFO, pyUpper_WARNING, List.append_assoc]
  · unfold toolsTryBlock
    rw [h]
    simp only [pyLen_strs, pyJoin_strs, hfilter]
    by_cases he : (missingOf xs).isEmpty = true
    · simp [he, log_recommendations]
    · simp [he, log_recommendations, addRec_recommendations]

/-- Witness for C4: the concrete discovered list `bash, fileRead`. -/
theorem c4_missing_tools_witness :
    json_loads "[\"bash\", \"fileRead\"]" =
      some (PyObj.list (["bash", "fileRead"].map PyObj.str)) ∧
    (toolsTryBlock initDiagnostics "[\"bash\", \"fileRead\"]").checks =
      initDiagnostics.checks ++
        [{ level := "INFO", message := "Server offers 2 tools: bash, fileRead", data := none }] ++
        (if (missingOf ["bash", "fileRead"]).isEmpty then []
         else [{ level := "WARNING",
                 message := "Missing expected tools: " ++
                   String.intercalate ", " (missingOf ["bash", "fileRead"]),
                 data := none }]) :=
  ⟨by rfl,
   (c4_missing_tools.1 initDiagnostics "[\"bash\", \"fileRead\"]" ["bash", "fileRead"]
      (by rfl)).1⟩

/-! ### Probe success predicate and capability-parse failure -/

/-- Does the expected-tools `try` block fail before logging its INFO line
(JSON decode failure, or a decoded payload whose `len`/`join` raises)? -/
def toolsParseFails (ts : String) : Bool :=
  match json_loads ts with
  | none => true
  | some tools => (pyLen tools).isNone || (pyJoinComma tools).isNone

theorem toolsTryBlock_of_parse_failure (d : Diagnostics) (ts : String)
    (h : toolsParseFails ts = true) :
    toolsTryBlock d ts = log d "WARNING" "Could not parse tools list" (some (PyObj.str ts)) := by
  unfold toolsParseFails at h
  unfold toolsTryBlock
  cases hj : json_loads ts with
  | none => simp
  | some tools =>
    rw [hj] at h
    cases hl : pyLen tools with
    | none => simp [hl]
    | some n =>
      cases hc : pyJoinComma tools with
      | none => simp [hl, hc]
      | some joined => simp [hl, hc] at h

/-- C7: the probe's success verdict is exactly the predicate
`exit code = 0` on the client run's outcome (run through the runner's
sentinel mapping), and a successful run whose capability token cannot be
parsed logs exactly one WARNING carrying the raw token while the verdict
stays true. -/
theorem c7_success_exit_code_and_parse_warning :
    (∀ (d : Diagnostics) (cmd : List String) (t : Nat) (beh : ChildBehavior),
      (run_command d cmd t beh).2.1 = runExitCode beh) ∧
    (∀ (d : Diagnostics) (t : Nat) (sp wd : String) (wde : Bool) (tcp : String)
      (beh : ChildBehavior) (uo : Bool) (es : String),
      (test_mcp_server_connection d t (some sp) wd wde tcp beh uo es).success =
        decide (runExitCode beh = 0)) ∧
    (∀ (d : Diagnostics) (t : Nat) (sp wd tcp : String) (uo : Bool)
      (es stdout stderr : String),
      pySubstr stdout "Tools available:" = true →
      toolsParseFails (toolsStrOf stdout) = true →
      ((test_mcp_server_connection d t (some sp) wd true tcp
          (ChildBehavior.completed 0 stdout stderr) uo es).success = true ∧
       (test_mcp_server_connection d t (some sp) wd true tcp
          (ChildBehavior.completed 0 stdout stderr) uo es).diag.checks =
        d.checks ++
          [{ level := "INFO", message := "Created test client at: " ++ tcp, data := none },
           { level := "INFO",
             message := "Running command: " ++ String.intercalate " " ["node", tcp, sp, wd],
             data := none },
           { level := "SUCCESS",
             message := "Connected to MCP server successfully in " ++ es ++ "s",
             data := some (PyObj.str stdout) },
           { level := "WARNING", message := "Could not parse tools list",
             data := some (PyObj.str (toolsStrOf stdout)) }])) := by
  refine ⟨run_command_exit, ?_, ?_⟩
  · intro d t sp wd wde tcp beh uo es
    unfold test_mcp_server_connection
    cases beh <;> cases wde <;>
      simp [run_command, runExitCode]
  · intro d t sp wd tcp uo es stdout stderr h1 h2
    unfold test_mcp_server_connection
    constructor
    · simp [run_command]
    · simp only [run_command]
      simp [successBranch, h1, toolsTryBlock_of_parse_failure _ _ h2, log_checks,
        pyUpper_INFO, pyUpper_SUCCESS, pyUpper_WARNING, List.append_assoc]

/-- Witness for C7: a successful run whose capability token is not JSON. -/
theorem c7_success_exit_code_and_parse_warning_witness :
    pySubstr "Tools available: nope\n" "Tools available:" = true ∧
    toolsParseFails (toolsStrOf "Tools available: nope\n") = true ∧
    (test_mcp_server_connection initDiagnostics 10 (some "/srv/mcp.js") "/work" true
        "/tmp/client.js" (ChildBehavior.completed 0 "Tools available: nope\n" "") true
        "0.10").success = true :=
  ⟨by decide, by rfl,
   ((c7_success_exit_code_and_parse_warning.2.2 initDiagnostics 10 "/srv/mcp.js" "/work"
      "/tmp/client.js" true "0.10" "Tools available: nope\n" "" (by decide) (by rfl))).1⟩

/-! ### Prerequisite-check parse failures -/

/-- C6 counterexample: a runtime version string whose leading component is
not numeric makes `int()` raise inside `check_node_version`, and the
exception escapes the check instead of being absorbed into the ledger. -/
theorem c6_counterexample_version_parse_raises :
    (check_node_version initDiagnostics 10
        (ChildBehavior.completed 0 "vNaN\n" "")).2 = Except.error "ValueError" := by rfl

/-- C6 as amended: a package-manager success response that fails JSON
decoding is caught and degraded to one WARNING plus one install
recommendation without propagating; but a non-numeric runtime version
string raises an uncaught `ValueError` out of the runtime check, and a
decodable response whose sdk entry lacks a `version` field raises an
uncaught `KeyError` out of the package check. -/
theorem c6_parse_failure_handling :
    (∀ (d : Diagnostics) (t : Nat) (stdout stderr : String),
      pySubstr stdout "@modelcontextprotocol/sdk" = true →
      json_loads stdout = none →
      ((check_mcp_sdk d t (ChildBehavior.completed 0 stdout stderr)).2 = Except.ok false ∧
       (check_mcp_sdk d t (ChildBehavior.completed 0 stdout stderr)).1.checks =
        d.checks ++
          [{ level := "INFO",
             message := "Running command: " ++
               String.intercalate " "
                 ["npm", "list", "@modelcontextprotocol/sdk", "--json", "--depth=0"],
             data := none },
           { level := "WARNING",
             message := "@modelcontextprotocol/sdk not found or has invalid version",
             data := none }] ∧
       (check_mcp_sdk d t (ChildBehavior.completed 0 stdout stderr)).1.recommendations =
        d.recommendations ++ ["Install @modelcontextprotocol/sdk package"])) ∧
    ((check_node_version initDiagnostics 10
        (ChildBehavior.completed 0 "vNaN\n" "")).2 = Except.error "ValueError") ∧
    ((check_mcp_sdk initDiagnostics 10 (ChildBehavior.completed 0
        "\x7b\"dependencies\": \x7b\"@modelcontextprotocol/sdk\": \x7b\x7d\x7d\x7d" "")).2 =
      Except.error "KeyError") := by
  refine ⟨?_, by rfl, by rfl⟩
  intro d t stdout stderr h1 h2
  unfold check_mcp_sdk
  simp only [run_command]
  rw [if_pos ⟨rfl, h1⟩, h2]
  refine ⟨rfl, ?_, ?_⟩ <;>
    simp [log_checks, log_recommendations, addRec_checks, addRec_recommendations,
      pyUpper_INFO, pyUpper_WARNING, List.append_assoc]

/-- Witness for C6 (amended): a non-JSON npm response mentioning the
package degrades to the WARNING without raising. -/
theorem c6_parse_failure_handling_witness :
    pySubstr "npm ERR @modelcontextprotocol/sdk broken output"
      "@modelcontextprotocol/sdk" = true ∧
    json_loads "npm ERR @modelcontextprotocol/sdk broken output" = none ∧
    (check_mcp_sdk initDiagnostics 10 (ChildBehavior.completed 0
        "npm ERR @modelcontextprotocol/sdk broken output" "")).2 = Except.ok false :=
  ⟨by decide, by rfl,
   (c6_parse_failure_handling.1 initDiagnostics 10
      "npm ERR @modelcontextprotocol/sdk broken output" "" (by decide) (by rfl)).1⟩

/-! ### Probe temporary-file cleanup -/

/-- Is the event a delete of path `p`? -/
def isUnlinkOf (p : String) : FsEvent → Bool
  | FsEvent.unlinkEv q _ => q = p
  | _ => false

/-- Is the event a file write to path `p`? -/
def isWriteOf (p : String) : FsEvent → Bool
  | FsEvent.writeEv q _ => q = p
  | _ => false

/-- C9 counterexample: in a concrete full probe run the marker file
`test-file.txt` is written into the working directory and no event ever
deletes it — only the throwaway client file is removed — so the probe does
not clean up both temporary files. -/
theorem c9_counterexample_marker_file_kept :
    (test_mcp_server_connection initDiagnostics 10 (some "/srv/mcp.js") "/work" true
        "/tmp/client.js" (ChildBehavior.completed 0 "" "") true "0.10").events =
      [FsEvent.writeEv "/work/test-file.txt" "Test content for MCP server",
       FsEvent.writeEv "/tmp/client.js" clientSource,
       FsEvent.unlinkEv "/tmp/client.js" true] ∧
    ((test_mcp_server_connection initDiagnostics 10 (some "/srv/mcp.js") "/work" true
        "/tmp/client.js" (ChildBehavior.completed 0 "" "") true "0.10").events.filter
      (isUnlinkOf "/work/test-file.txt")) = [] := by
  constructor <;> rfl

/-- C9 as amended: on every probe run that reaches the client invocation,
the throwaway client file is deleted exactly once afterwards, best-effort
(a failed delete is swallowed, and the delete happens whatever the client
run's outcome); the marker file written into the working directory is never
deleted. -/
theorem c9_cleanup_behaviour :
    ∀ (d : Diagnostics) (t : Nat) (sp wd : String) (wde : Bool) (tcp : String)
      (beh : ChildBehavior) (uo : Bool) (es : String),
      tcp ≠ pathJoin wd "test-file.txt" →
      ((test_mcp_server_connection d t (some sp) wd wde tcp beh uo es).events.filter
          (isUnlinkOf tcp) = [FsEvent.unlinkEv tcp uo]) ∧
      ((test_mcp_server_connection d t (some sp) wd wde tcp beh uo es).events.filter
          (isWriteOf (pathJoin wd "test-file.txt")) =
        [FsEvent.writeEv (pathJoin wd "test-file.txt") "Test content for MCP server"]) ∧
      ((test_mcp_server_connection d t (some sp) wd wde tcp beh uo es).events.filter
          (isUnlinkOf (pathJoin wd "test-file.txt")) = []) := by
  intro d t sp wd wde tcp beh uo es hne
  cases beh <;> cases wde <;>
    simp [test_mcp_server_connection, run_command, isUnlinkOf, isWriteOf, hne]

/-- Witness for C9 (amended) at a concrete probe run. -/
theorem c9_cleanup_behaviour_witness :
    ("/tmp/client.js" : String) ≠ pathJoin "/work" "test-file.txt" ∧
    ((test_mcp_server_connection initDiagnostics 10 (some "/srv/mcp.js") "/work" false
        "/tmp/client.js" ChildBehavior.timedOut false "0.10").events.filter
      (isUnlinkOf "/tmp/client.js") = [FsEvent.unlinkEv "/tmp/client.js" false]) :=
  ⟨by decide,
   (c9_cleanup_behaviour initDiagnostics 10 "/srv/mcp.js" "/work" false "/tmp/client.js"
      ChildBehavior.timedOut false "0.10" (by decide)).1⟩

/-! ### Main pipeline gating and exit codes -/

theorem mainCore_shape (d0 : Diagnostics) (tdir : String) (inp : MainInput) (r : MainResult)
    (h : mainCore d0 tdir inp = r) :
    (r.report = none ∧ ∃ e, r.outcome = Except.error e) ∨
    (∃ rep, r.report = some rep ∧
      r.outcome = Except.ok (if r.serverOk = true then 0 else 1) ∧
      rep.severity = severityOf rep.issues_found ∧
      (r.probeRan = false → r.serverOk = false ∧ 1 ≤ rep.issues_found)) := by
  unfold mainCore at h
  dsimp only at h
  rcases h1 : check_node_version (log d0 "INFO" "Starting MCP server diagnostics" none)
      inp.timeout inp.nodeBeh with ⟨d1, e1 | b1⟩ <;> rw [h1] at h <;> dsimp only at h
  · subst h
    exact Or.inl ⟨rfl, e1, rfl⟩
  · rcases h2 : check_mcp_sdk d1 inp.timeout inp.npmBeh with ⟨d2, e2 | b2⟩ <;>
      rw [h2] at h <;> dsimp only at h
    · subst h
      exact Or.inl ⟨rfl, e2, rfl⟩
    · rcases h3 : find_mcp_server_file d2 inp.serverFound with ⟨d3, sp3⟩
      rw [h3] at h
      dsimp only at h
      by_cases hg : (b1 && b2 && sp3.isSome) = true
      · rw [if_pos hg] at h
        subst h
        refine Or.inr ⟨_, rfl, rfl, rfl, ?_⟩
        intro hpr
        simp at hpr
      · rw [if_neg hg] at h
        subst h
        refine Or.inr ⟨_, rfl, rfl, rfl, ?_⟩
        intro _
        refine ⟨rfl, ?_⟩
        simp [generate_report, log_issues, pyUpper_ERROR]

theorem mainRun_shape (inp : MainInput) (r : MainResult) (h : mainRun inp = r) :
    (r.report = none ∧ ∃ e, r.outcome = Except.error e) ∨
    (∃ rep, r.report = some rep ∧
      r.outcome = Except.ok (if r.serverOk = true then 0 else 1) ∧
      rep.severity = severityOf rep.issues_found ∧
      (r.probeRan = false → r.serverOk = false ∧ 1 ≤ rep.issues_found)) := by
  unfold mainRun at h
  rcases htd : inp.target_dir with _ | t <;> rw [htd] at h <;> dsimp only at h <;>
    exact mainCore_shape _ _ _ _ h

/-- C8: when the probe is skipped (the prerequisite gate failed) a clean run
still produces a report, its severity is WARNING or CRITICAL, and the exit
code is 1; a clean run exits 0 exactly when the probe ran and succeeded; and
the top-level handler keeps the `sys.exit` code of a clean run, maps a user
interrupt to 130, and maps any other escaping exception to 1. -/
theorem c8_gating_and_exit_codes :
    (∀ (inp : MainInput) (c : Nat),
      (mainRun inp).outcome = Except.ok c →
      (mainRun inp).probeRan = false →
      c = 1 ∧ ∃ rep, (mainRun inp).report = some rep ∧
        (rep.severity = "WARNING" ∨ rep.severity = "CRITICAL")) ∧
    (∀ (inp : MainInput) (c : Nat),
      (mainRun inp).outcome = Except.ok c → (c = 0 ↔ (mainRun inp).serverOk = true)) ∧
    (∀ c : Nat, processExit (Except.ok c) = c) ∧
    (processExit (Except.error "KeyboardInterrupt") = 130) ∧
    (∀ e : String, e ≠ "KeyboardInterrupt" → processExit (Except.error e) = 1) := by
  refine ⟨?_, ?_, fun c => rfl, rfl, ?_⟩
  · intro inp c hout hpr
    rcases mainRun_shape inp _ rfl with ⟨_, e, he⟩ | ⟨rep, hrep, hout2, hsev, himp⟩
    · rw [he] at hout
      cases hout
    · obtain ⟨hso, hissues⟩ := himp hpr
      rw [hso] at hout2
      rw [hout] at hout2
      have hc : c = 1 := by
        simp only [if_neg (Bool.false_ne_true)] at hout2
        exact (Except.ok.injEq _ _).mp hout2
      refine ⟨hc, rep, hrep, ?_⟩
      rw [hsev]
      exact severityOf_pos rep.issues_found (by omega)
  · intro inp c hout
    rcases mainRun_shape inp _ rfl with ⟨_, e, he⟩ | ⟨rep, hrep, hout2, hsev, himp⟩
    · rw [he] at hout
      cases hout
    · rw [hout] at hout2
      rcases Bool.eq_false_or_eq_true (mainRun inp).serverOk with hs | hs <;>
        rw [hs] at hout2 <;> simp at hout2 <;> simp [hs, hout2]
  · intro e he
    simp [processExit, he]

/-- A concrete environment in which Node.js cannot be launched, npm reports
failure, and no server file is found. -/
def inpFailNode : MainInput :=
  { timeout := 10, target_dir := some "/work", tmp_dir := "/tmp/x",
    nodeBeh := ChildBehavior.launchError "ENOENT node",
    npmBeh := ChildBehavior.completed 1 "" "",
    serverFound := none, work_dir_exists := true, client_path := "/tmp/c.js",
    clientBeh := ChildBehavior.completed 0 "" "", client_unlink_ok := true,
    elapsed := "0.10", report_path := "report.json" }

/-- Witness for C8: a run whose prerequisites all fail. -/
theorem c8_gating_and_exit_codes_witness :
    (1 : Nat) = 1 ∧ ((1 : Nat) = 0 ↔ (mainRun inpFailNode).serverOk = true) ∧
    processExit (Except.error "ValueError") = 1 :=
  ⟨(c8_gating_and_exit_codes.1 inpFailNode 1 (by rfl) (by rfl)).1,
   c8_gating_and_exit_codes.2.1 inpFailNode 1 (by rfl),
   c8_gating_and_exit_codes.2.2.2.2 "ValueError" (by decide)⟩

/-- Witness for C5 at concrete runner invocations. -/
theorem c5_sentinel_exit_codes_witness :
    ((run_command initDiagnostics ["node"] 10 ChildBehavior.timedOut).2 =
      (-1, "", "Timed out after " ++ toString (10 : Nat) ++ " seconds")) ∧
    ((run_command initDiagnostics ["node"] 10 (ChildBehavior.launchError "boom")).2 =
      (-2, "", "boom")) ∧
    ((run_command initDiagnostics ["node"] 10 (ChildBehavior.completed 0 "" "")).2.1 =
      ((0 : Nat) : Int)) :=
  ⟨c5_sentinel_exit_codes.1 initDiagnostics ["node"] 10,
   c5_sentinel_exit_codes.2.1 initDiagnostics ["node"] 10 "boom",
   (c5_sentinel_exit_codes.2.2.2 initDiagnostics ["node"] 10 0 "" "").1⟩
